import Mathlib

/-!
A verification model of the auto-update subsystem in
`crates/auto_update2/src/auto_update.rs`.

The stateful updater (`AutoUpdater`) is embedded as an explicit state
machine: external effects (HTTP fetch, artifact download, the external
mount/copy/unmount commands, the key-value store) are oracled by an
environment record describing their outcomes, and the asynchronous update
cycle is embedded as a pure function from that environment to the sequence
of status assignments it performs, the external steps it runs, and its
final `Result`.
-/

deriving instance DecidableEq for Except

/-- The `AutoUpdateStatus` enum from `auto_update.rs` (lines 42-50). -/
inductive AutoUpdateStatus where
  | Idle
  | Checking
  | Downloading
  | Installing
  | Updated
  | Errored
deriving DecidableEq, Repr

/-- The release channels (`util::channel::ReleaseChannel`, listed in the
spec's data model: `Dev | Nightly | Preview | Stable`). -/
inductive ReleaseChannel where
  | Dev
  | Nightly
  | Preview
  | Stable
deriving DecidableEq, Repr

/-- The error taxonomy of the update cycle, one constructor per discrete
failure point of `AutoUpdater::update` (the diagnostic payload strings the
code attaches via `anyhow` are not modelled). -/
inductive UpdateError where
  | fetchError
  | parseError
  | versionParseError
  | downloadError
  | mountError
  | installCopyError
  | unmountError
deriving DecidableEq, Repr

/-- The `JsonRelease` struct from `auto_update.rs` (lines 60-64): the release
descriptor `{version, url}`. -/
structure JsonRelease where
  version : String
  url : String
deriving DecidableEq, Repr

/-- Modelled from the spec: `gpui::SemanticVersion` (the running build's
version) is outside `src/`; the spec gives it major/minor/patch components
with strict lexicographic precedence (major, then minor, then patch). -/
structure SemanticVersion where
  major : Nat
  minor : Nat
  patch : Nat
deriving DecidableEq, Repr

/-- Strict precedence order on semantic versions: major, then minor, then
patch. -/
def SemanticVersion.lt (a b : SemanticVersion) : Bool :=
  a.major < b.major ||
    (a.major == b.major &&
      (a.minor < b.minor || (a.minor == b.minor && a.patch < b.patch)))

/-- Non-strict precedence order on semantic versions. -/
def SemanticVersion.le (a b : SemanticVersion) : Bool :=
  SemanticVersion.lt a b || a == b

/-- Split a character list on the dot separator. -/
def splitOnDot : List Char → List (List Char)
  | [] => [[]]
  | c :: rest =>
    if c = '.' then [] :: splitOnDot rest
    else
      match splitOnDot rest with
      | [] => [[c]]
      | g :: gs => (c :: g) :: gs

/-- Parse a non-empty all-digit character list as a natural number. -/
def digitsToNat : List Char → Option Nat
  | [] => none
  | cs =>
    cs.foldl
      (fun acc c =>
        match acc with
        | none => none
        | some n => if c.isDigit then some (n * 10 + (c.toNat - 48)) else none)
      (some 0)

/-- Modelled from the spec: parsing a version string `"X.Y.Z"` as a
semantic version (the `FromStr` impl of `gpui::SemanticVersion` is outside
`src/`); parse failure of the descriptor's version fails the cycle. -/
def SemanticVersion.parse (s : String) : Option SemanticVersion :=
  match (splitOnDot s.toList).map digitsToNat with
  | [some a, some b, some c] => some ⟨a, b, c⟩
  | _ => none

/-- The version decision of `AutoUpdater::update` (lines 275-280).
For `Nightly` the descriptor version is compared with the known commit
sha (`try_read_global::<AppCommitSha>`, absent global defaulting to
`true`); for every other channel the code computes
`release.version.parse::<SemanticVersion>()? <= current_version`. -/
def shouldDownload (channel : ReleaseChannel) (commitSha : Option String)
    (releaseVersion : String) (currentVersion : SemanticVersion) :
    Except UpdateError Bool :=
  match channel with
  | ReleaseChannel.Nightly =>
    Except.ok (match commitSha with
      | some sha => releaseVersion != sha
      | none => true)
  | _ =>
    match SemanticVersion.parse releaseVersion with
    | some v => Except.ok (SemanticVersion.le v currentVersion)
    | none => Except.error UpdateError.versionParseError

/-- The environment of one update cycle: the outcome of each external
collaborator used by `AutoUpdater::update` (HTTP fetch of the release
descriptor, the `AppCommitSha` global, the release channel, the running
version, and the exit outcome of each subsequent external step). -/
structure CycleEnv where
  /-- Outcome of `client.get(url)` + body read + `serde_json::from_slice`
  (lines 264-273); an error here is a `FetchError` or `ParseError`. -/
  fetch : Except UpdateError JsonRelease
  /-- The value of `*RELEASE_CHANNEL`. -/
  channel : ReleaseChannel
  /-- The `AppCommitSha` global, `none` when unset (line 277). -/
  commitSha : Option String
  /-- The running version `this.current_version`, fixed at construction. -/
  currentVersion : SemanticVersion
  /-- Whether the scratch-dir creation, path resolution, second GET and
  stream copy into the dmg file (lines 295-327) all succeed. -/
  downloadOk : Bool
  /-- Whether `hdiutil attach` exits successfully (lines 334-346). -/
  mountOk : Bool
  /-- Whether `rsync -av --delete` exits successfully (lines 348-359). -/
  copyOk : Bool
  /-- Whether `hdiutil detach` exits successfully (lines 361-371). -/
  unmountOk : Bool
  /-- Whether the fire-and-forget notification-flag write would succeed;
  `AutoUpdater::update` never consults this. -/
  flagWriteOk : Bool
deriving DecidableEq, Repr

/-- What one run of `AutoUpdater::update` did: the sequence of statuses it
assigned to `this.status` (in order), which external steps it executed,
whether it requested the notification-flag write, and its `Result`. -/
structure CycleResult where
  /-- Statuses assigned by the cycle body, in program order (the `Checking`
  status is assigned by `poll` before the cycle starts, not here). -/
  statusTrace : List AutoUpdateStatus
  /-- The artifact download (second GET) ran to completion. -/
  downloaded : Bool
  /-- The `hdiutil attach` command was executed. -/
  mountAttempted : Bool
  /-- The `rsync` command was executed. -/
  copyAttempted : Bool
  /-- The `hdiutil detach` command was executed. -/
  unmountAttempted : Bool
  /-- Whether `set_should_show_update_notification(true)` was spawned. -/
  flagWriteRequested : Bool
  /-- The `Result<()>` returned to `poll`'s completion handler. -/
  result : Except UpdateError Unit
deriving DecidableEq, Repr

/-- Embedding of `AutoUpdater::update` (lines 243-380), with each `?` on an
external step turned into a branch on the corresponding `CycleEnv` field.
Control flow in source order: fetch and parse the descriptor (lines
264-273), decide `should_download` (lines 275-280), short-circuit to `Idle`
when not downloading (lines 282-288), set `Downloading` (lines 290-293),
download (lines 295-327), set `Installing` (lines 329-332), mount, copy,
unmount (lines 334-371), then spawn the flag write and set `Updated`
(lines 373-378). -/
def runUpdateCycle (env : CycleEnv) : CycleResult :=
  match env.fetch with
  | Except.error e =>
    ⟨[], false, false, false, false, false, Except.error e⟩
  | Except.ok release =>
    match shouldDownload env.channel env.commitSha release.version
        env.currentVersion with
    | Except.error e =>
      ⟨[], false, false, false, false, false, Except.error e⟩
    | Except.ok sd =>
      if !sd then
        ⟨[AutoUpdateStatus.Idle], false, false, false, false, false,
          Except.ok ()⟩
      else if !env.downloadOk then
        ⟨[AutoUpdateStatus.Downloading], false, false, false, false, false,
          Except.error UpdateError.downloadError⟩
      else if !env.mountOk then
        ⟨[AutoUpdateStatus.Downloading, AutoUpdateStatus.Installing],
          true, true, false, false, false,
          Except.error UpdateError.mountError⟩
      else if !env.copyOk then
        ⟨[AutoUpdateStatus.Downloading, AutoUpdateStatus.Installing],
          true, true, true, false, false,
          Except.error UpdateError.installCopyError⟩
      else if !env.unmountOk then
        ⟨[AutoUpdateStatus.Downloading, AutoUpdateStatus.Installing],
          true, true, true, true, false,
          Except.error UpdateError.unmountError⟩
      else
        ⟨[AutoUpdateStatus.Downloading, AutoUpdateStatus.Installing,
            AutoUpdateStatus.Updated],
          true, true, true, true, true, Except.ok ()⟩

/-- The observable state of one `AutoUpdater` instance: its status and the
in-flight poll task. `inFlight = some (tr, r)` models
`pending_poll = Some(task)` where the task still has the status
assignments `tr` to perform and will hand `r` to the completion handler;
`inFlight = none` models `pending_poll = None`. -/
structure SysState where
  status : AutoUpdateStatus
  inFlight : Option (List AutoUpdateStatus × Except UpdateError Unit)
deriving DecidableEq, Repr

/-- Construction: `AutoUpdater::new` leaves status `Idle` and no pending poll
(lines 189-201). -/
def initState : SysState := ⟨AutoUpdateStatus.Idle, none⟩

/-- The synchronous body of `AutoUpdater::poll` (lines 212-232): a no-op
when a poll is pending or status is `Updated`; otherwise set `Checking`
and spawn the cycle. The returned flag records whether a cycle was
launched. -/
def pollSync (env : CycleEnv) (s : SysState) : SysState × Bool :=
  if s.inFlight.isSome || s.status == AutoUpdateStatus.Updated then
    (s, false)
  else
    (⟨AutoUpdateStatus.Checking,
      some ((runUpdateCycle env).statusTrace, (runUpdateCycle env).result)⟩,
     true)

/-- Embedding of `AutoUpdater::dismiss_error` (lines 238-241): sets status to `Idle`
unconditionally. -/
def dismissError (s : SysState) : SysState :=
  ⟨AutoUpdateStatus.Idle, s.inFlight⟩

/-- The status after `poll`'s completion handler (lines 222-229) runs with
cycle result `r`: on `Err` the handler sets `Errored`, on `Ok` it leaves
the status the cycle last assigned. -/
def finalStatus (current : AutoUpdateStatus) :
    Except UpdateError Unit → AutoUpdateStatus
  | Except.error _ => AutoUpdateStatus.Errored
  | Except.ok _ => current

/-- One atomic state mutation of the updater. Each constructor is one
serialized `update`/closure from the source: the synchronous body of
`poll`, `dismiss_error`, one status assignment performed inside the
running cycle, and the completion handler (which clears `pending_poll`
and, on error, sets `Errored`, in the same closure). -/
inductive Step : SysState → SysState → Prop
  | poll (env : CycleEnv) (s : SysState) : Step s (pollSync env s).1
  | dismiss (s : SysState) : Step s (dismissError s)
  | cycle (s : SysState) (st : AutoUpdateStatus)
      (rest : List AutoUpdateStatus) (r : Except UpdateError Unit) :
      s.inFlight = some (st :: rest, r) → Step s ⟨st, some (rest, r)⟩
  | complete (s : SysState) (r : Except UpdateError Unit) :
      s.inFlight = some ([], r) → Step s ⟨finalStatus s.status r, none⟩

/-- States reachable from a fresh `AutoUpdater`. -/
inductive Reachable : SysState → Prop
  | init : Reachable initState
  | step {s s' : SysState} : Reachable s → Step s s' → Reachable s'

/-- Running `poll` and letting the launched cycle (if any) run to
completion with no interleaved mutation: the end-to-end path of one
uncontended poll. -/
def runPollToCompletion (env : CycleEnv) (s : SysState) : SysState :=
  if (pollSync env s).2 then
    ⟨finalStatus
        ((runUpdateCycle env).statusTrace.getLastD AutoUpdateStatus.Checking)
        (runUpdateCycle env).result,
      none⟩
  else s

/-- The in-flight part of the invariant: when the pending cycle will
report `Ok`, the last status it still has to assign (or, if it has
assigned them all, the status it left behind) is `Idle` or `Updated`. -/
def okTraceInv (status : AutoUpdateStatus)
    (tr : List AutoUpdateStatus) : Prop :=
  match tr.getLast? with
  | some last =>
    last = AutoUpdateStatus.Idle ∨ last = AutoUpdateStatus.Updated
  | none =>
    status = AutoUpdateStatus.Idle ∨ status = AutoUpdateStatus.Updated

/-- The inductive invariant of the updater: with no poll in flight the
status is `Idle`, `Updated` or `Errored`; with an in-flight cycle that
will report `Ok`, the status it will leave at completion is `Idle` or
`Updated`. -/
def UpdaterInv (s : SysState) : Prop :=
  match s.inFlight with
  | none =>
    s.status = AutoUpdateStatus.Idle ∨ s.status = AutoUpdateStatus.Updated ∨
      s.status = AutoUpdateStatus.Errored
  | some (_, Except.error _) => True
  | some (tr, Except.ok _) => okTraceInv s.status tr

theorem runUpdateCycle_ok_getLast (env : CycleEnv)
    (h : (runUpdateCycle env).result = Except.ok ()) :
    (runUpdateCycle env).statusTrace.getLast? =
        some AutoUpdateStatus.Idle ∨
      (runUpdateCycle env).statusTrace.getLast? =
        some AutoUpdateStatus.Updated := by
  obtain ⟨f, ch, sha, cv, d, m, c, u, fw⟩ := env
  cases f with
  | error e => simp [runUpdateCycle] at h
  | ok release =>
    cases hsd : shouldDownload ch sha release.version cv with
    | error e => simp [runUpdateCycle, hsd] at h
    | ok sd =>
      cases sd <;> cases d <;> cases m <;> cases c <;> cases u <;>
        simp_all [runUpdateCycle, hsd]

theorem okTraceInv_idle (status : AutoUpdateStatus)
    (tr : List AutoUpdateStatus) (h : okTraceInv status tr) :
    okTraceInv AutoUpdateStatus.Idle tr := by
  unfold okTraceInv at h ⊢
  cases htr : tr.getLast? with
  | none => simp
  | some last => rw [htr] at h; exact h

theorem okTraceInv_cons (status st : AutoUpdateStatus)
    (rest : List AutoUpdateStatus) (h : okTraceInv status (st :: rest)) :
    okTraceInv st rest := by
  unfold okTraceInv at h ⊢
  cases rest with
  | nil => simpa using h
  | cons b t => rw [List.getLast?_cons_cons] at h; exact h

theorem inv_init : UpdaterInv initState := by
  simp [UpdaterInv, initState]

theorem inv_step {s s' : SysState} (hs : UpdaterInv s) (h : Step s s') :
    UpdaterInv s' := by
  cases h with
  | poll env s =>
    by_cases hg :
        (s.inFlight.isSome || s.status == AutoUpdateStatus.Updated) = true
    · simpa [pollSync, hg] using hs
    · simp only [pollSync, hg, if_false, Bool.false_eq_true, if_neg,
        not_false_iff]
      cases hr : (runUpdateCycle env).result with
      | error e => simp [pollSync, hg, UpdaterInv, hr]
      | ok u =>
        cases u
        have hlast := runUpdateCycle_ok_getLast env hr
        simp only [pollSync, hg, Bool.false_eq_true, if_neg,
          not_false_iff, hr, UpdaterInv, okTraceInv]
        rcases hlast with h1 | h1 <;> simp [h1]
  | dismiss s =>
    cases hif : s.inFlight with
    | none => simp [UpdaterInv, dismissError, hif]
    | some p =>
      obtain ⟨tr, r⟩ := p
      cases r with
      | error e => simp [UpdaterInv, dismissError, hif]
      | ok u =>
        cases u
        unfold UpdaterInv at hs
        rw [hif] at hs
        have := okTraceInv_idle s.status tr hs
        simp only [UpdaterInv, dismissError, hif]
        exact this
  | cycle s st rest r hif =>
    cases r with
    | error e => simp [UpdaterInv]
    | ok u =>
      cases u
      unfold UpdaterInv at hs
      rw [hif] at hs
      have := okTraceInv_cons s.status st rest hs
      simp only [UpdaterInv]
      exact this
  | complete s r hif =>
    cases r with
    | error e => simp [UpdaterInv, finalStatus]
    | ok u =>
      cases u
      unfold UpdaterInv at hs
      rw [hif] at hs
      unfold okTraceInv at hs
      simp only [List.getLast?_nil] at hs
      simp only [UpdaterInv, finalStatus]
      rcases hs with h1 | h1
      · exact Or.inl h1
      · exact Or.inr (Or.inl h1)

theorem reachable_inv {s : SysState} (h : Reachable s) : UpdaterInv s := by
  induction h with
  | init => exact inv_init
  | step _ hstep ih => exact inv_step ih hstep

/-- The persistent key-value store interface used for the notification
flag (`db::kvp::KEY_VALUE_STORE`: `write_kvp`, `delete_kvp`,
`read_kvp`). -/
abbrev KVStore : Type := String → Option String

/-- The `write_kvp` operation: durably associate `value` with `key`. -/
def writeKvp (store : KVStore) (key value : String) : KVStore :=
  fun k => if k = key then some value else store k

/-- The `delete_kvp` operation: durably remove `key`. -/
def deleteKvp (store : KVStore) (key : String) : KVStore :=
  fun k => if k = key then none else store k

/-- The `read_kvp` operation: the value at `key`, if present. -/
def readKvp (store : KVStore) (key : String) : Option String :=
  store key

/-- The fixed key of the notification flag (line 24). -/
def SHOULD_SHOW_UPDATE_NOTIFICATION_KEY : String :=
  "auto-updater-should-show-updated-notification"

/-- Embedding of `AutoUpdater::set_should_show_update_notification` (lines 382-402):
write the sentinel `""` under the fixed key when `should_show`, else
delete the key. -/
def setShouldShowUpdateNotification (shouldShow : Bool)
    (store : KVStore) : KVStore :=
  if shouldShow then
    writeKvp store SHOULD_SHOW_UPDATE_NOTIFICATION_KEY ""
  else
    deleteKvp store SHOULD_SHOW_UPDATE_NOTIFICATION_KEY

/-- Embedding of `AutoUpdater::should_show_update_notification` (lines 404-410): true
iff the fixed key is present. -/
def shouldShowUpdateNotification (store : KVStore) : Bool :=
  (readKvp store SHOULD_SHOW_UPDATE_NOTIFICATION_KEY).isSome

/-- A cycle environment whose release fetch fails. -/
def sampleEnv : CycleEnv :=
  ⟨Except.error UpdateError.fetchError, ReleaseChannel.Stable, none,
    ⟨1, 0, 0⟩, false, false, false, false, false⟩

/-- A cycle environment on Stable where the decision downloads, the
download, mount and copy succeed, and the unmount exits non-zero. -/
def envUnmountFail : CycleEnv :=
  ⟨Except.ok ⟨"1.0.0", "u"⟩, ReleaseChannel.Stable, none, ⟨1, 2, 0⟩,
    true, true, true, false, true⟩

/-- A cycle environment on Stable where every step succeeds. -/
def envFullSuccess : CycleEnv :=
  ⟨Except.ok ⟨"1.0.0", "u"⟩, ReleaseChannel.Stable, none, ⟨1, 2, 0⟩,
    true, true, true, true, true⟩

/-- The equal-versions scenario of the spec: running version `1.2.0`,
server returns version `"1.2.0"`, every external step would succeed. -/
def envEqualVersions : CycleEnv :=
  ⟨Except.ok ⟨"1.2.0", "https://x/artifact"⟩, ReleaseChannel.Stable, none,
    ⟨1, 2, 0⟩, true, true, true, true, true⟩

/-- Claim C1: the claim says that off-Nightly the update is judged newer
iff the descriptor's version is strictly greater than the running
version, equal versions never newer. The code (line 279) instead computes
`release_version <= current_version`: at equal versions `1.2.0` it judges
the update downloadable although the descriptor is not strictly greater,
and at a strictly greater descriptor `1.2.0` over running `1.0.0` it
judges it not downloadable. This theorem evaluates the code at both
failing inputs. -/
theorem c1_version_decision_code_eval :
    shouldDownload ReleaseChannel.Stable none "1.2.0" ⟨1, 2, 0⟩ =
        Except.ok true ∧
      SemanticVersion.lt ⟨1, 2, 0⟩ ⟨1, 2, 0⟩ = false ∧
      shouldDownload ReleaseChannel.Stable none "1.2.0" ⟨1, 0, 0⟩ =
        Except.ok false ∧
      SemanticVersion.lt ⟨1, 0, 0⟩ ⟨1, 2, 0⟩ = true := by
  decide

/-- Claim C2: `poll` is a no-op (state unchanged, no cycle launched) when
a poll is already pending or status is `Updated`; from a quiescent
non-`Updated` state, the first of two immediately successive `poll` calls
launches exactly one cycle and the second changes nothing. -/
theorem c2_poll_idempotent (env env2 : CycleEnv) (s : SysState) :
    ((s.inFlight.isSome = true ∨ s.status = AutoUpdateStatus.Updated) →
      pollSync env s = (s, false)) ∧
    (s.inFlight = none → s.status ≠ AutoUpdateStatus.Updated →
      (pollSync env s).2 = true ∧
      pollSync env2 (pollSync env s).1 = ((pollSync env s).1, false)) := by
  constructor
  · intro h
    rcases h with h | h <;> simp [pollSync, h]
  · intro h1 h2
    simp [pollSync, h1, h2]

/-- Witness for C2 at concrete states. -/
theorem c2_poll_idempotent_witness :
    pollSync sampleEnv ⟨AutoUpdateStatus.Updated, none⟩ =
        (⟨AutoUpdateStatus.Updated, none⟩, false) ∧
      (pollSync sampleEnv ⟨AutoUpdateStatus.Idle, none⟩).2 = true :=
  ⟨(c2_poll_idempotent sampleEnv sampleEnv
      ⟨AutoUpdateStatus.Updated, none⟩).1 (Or.inr rfl),
   ((c2_poll_idempotent sampleEnv sampleEnv
      ⟨AutoUpdateStatus.Idle, none⟩).2 rfl (by decide)).1⟩

/-- Claim C3 counterexample: the claim says `dismiss_error` leaves any
status other than `Errored` unchanged, but the code (lines 238-241) sets
`Idle` unconditionally: from `Updated` the status does not stay
`Updated`. -/
theorem c3_dismiss_error_counterexample :
    (dismissError ⟨AutoUpdateStatus.Updated, none⟩).status ≠
      AutoUpdateStatus.Updated := by
  decide

/-- Claim C3 as amended: `dismiss_error` sets status to `Idle`
unconditionally — in particular `Errored` transitions to `Idle`, but so
does every other status — and leaves the pending poll untouched. -/
theorem c3_dismiss_error_amended (s : SysState) :
    (dismissError s).status = AutoUpdateStatus.Idle ∧
      (dismissError s).inFlight = s.inFlight :=
  ⟨rfl, rfl⟩

/-- Witness for C3's amended theorem at a concrete state. -/
theorem c3_dismiss_error_amended_witness :
    (dismissError ⟨AutoUpdateStatus.Errored, none⟩).status =
        AutoUpdateStatus.Idle ∧
      (dismissError ⟨AutoUpdateStatus.Errored, none⟩).inFlight = none :=
  c3_dismiss_error_amended ⟨AutoUpdateStatus.Errored, none⟩

/-- Claim C4: from a quiescent state, a fetch failure ends the whole poll
in `Errored` with no download, mount, copy, unmount or flag write
executed; and more generally every cycle error is absorbed at the poll
boundary into the `Errored` status with the pending poll cleared. -/
theorem c4_errors_confined (env : CycleEnv) (s : SysState)
    (h1 : s.inFlight = none) (h2 : s.status ≠ AutoUpdateStatus.Updated) :
    (∀ e : UpdateError, env.fetch = Except.error e →
      runPollToCompletion env s = ⟨AutoUpdateStatus.Errored, none⟩ ∧
      (runUpdateCycle env).downloaded = false ∧
      (runUpdateCycle env).mountAttempted = false ∧
      (runUpdateCycle env).copyAttempted = false ∧
      (runUpdateCycle env).unmountAttempted = false ∧
      (runUpdateCycle env).flagWriteRequested = false) ∧
    (∀ e : UpdateError, (runUpdateCycle env).result = Except.error e →
      runPollToCompletion env s = ⟨AutoUpdateStatus.Errored, none⟩) := by
  have hguard : (pollSync env s).2 = true := by
    simp [pollSync, h1, h2]
  constructor
  · intro e he
    refine ⟨?_, by simp [runUpdateCycle, he]⟩
    simp [runPollToCompletion, hguard, runUpdateCycle, he, finalStatus]
  · intro e he
    simp [runPollToCompletion, hguard, he, finalStatus]

/-- Witness for C4: the failing-fetch environment from a fresh updater. -/
theorem c4_errors_confined_witness :
    runPollToCompletion sampleEnv initState =
        ⟨AutoUpdateStatus.Errored, none⟩ ∧
      (runUpdateCycle sampleEnv).downloaded = false :=
  ⟨((c4_errors_confined sampleEnv initState rfl (by decide)).1
      UpdateError.fetchError rfl).1,
   ((c4_errors_confined sampleEnv initState rfl (by decide)).1
      UpdateError.fetchError rfl).2.1⟩

/-- Claim C5: on Nightly the decision downloads iff the descriptor's
version string differs from the known current commit sha, and always
downloads when the commit sha is unknown (lines 276-278). -/
theorem c5_nightly_decision (sha version : String)
    (cur : SemanticVersion) :
    (shouldDownload ReleaseChannel.Nightly (some sha) version cur =
        Except.ok true ↔ version ≠ sha) ∧
      shouldDownload ReleaseChannel.Nightly none version cur =
        Except.ok true := by
  constructor
  · simp [shouldDownload]
  · simp [shouldDownload]

/-- Witness for C5 at concrete strings. -/
theorem c5_nightly_decision_witness :
    (shouldDownload ReleaseChannel.Nightly (some "abc") "def" ⟨0, 0, 0⟩ =
        Except.ok true ↔ "def" ≠ "abc") ∧
      shouldDownload ReleaseChannel.Nightly none "def" ⟨0, 0, 0⟩ =
        Except.ok true :=
  c5_nightly_decision "abc" "def" ⟨0, 0, 0⟩

/-- Claim C6: the claim says equal versions are judged not newer, ending
the cycle in `Idle` with no artifact download and no flag write. Evaluating
the code on the spec's own scenario (running `1.2.0`, server `"1.2.0"`,
all steps succeeding) shows the cycle instead downloads the artifact, runs
the full install, requests the flag write, and ends `Updated`. -/
theorem c6_equal_version_code_eval :
    (runUpdateCycle envEqualVersions).downloaded = true ∧
      (runUpdateCycle envEqualVersions).statusTrace =
        [AutoUpdateStatus.Downloading, AutoUpdateStatus.Installing,
          AutoUpdateStatus.Updated] ∧
      (runUpdateCycle envEqualVersions).flagWriteRequested = true ∧
      (runUpdateCycle envEqualVersions).result = Except.ok () := by
  decide

/-- The part of C6 the code does satisfy: whenever `should_download` is
computed `false`, the cycle sets `Idle`, performs no external step, and
returns success (lines 282-288). -/
theorem notNewer_goes_idle (env : CycleEnv) (rel : JsonRelease)
    (hf : env.fetch = Except.ok rel)
    (hsd : shouldDownload env.channel env.commitSha rel.version
      env.currentVersion = Except.ok false) :
    runUpdateCycle env =
      ⟨[AutoUpdateStatus.Idle], false, false, false, false, false,
        Except.ok ()⟩ := by
  simp [runUpdateCycle, hf, hsd]

/-- Claim C7: when fetch, decision, download, mount and copy succeed but
the unmount exits non-zero, the cycle fails with the unmount error, never
reaches the `Updated` transition, requests no flag write, and the poll
ends `Errored`. -/
theorem c7_unmount_failure (env : CycleEnv) (s : SysState)
    (rel : JsonRelease)
    (hf : env.fetch = Except.ok rel)
    (hsd : shouldDownload env.channel env.commitSha rel.version
      env.currentVersion = Except.ok true)
    (hd : env.downloadOk = true) (hm : env.mountOk = true)
    (hc : env.copyOk = true) (hu : env.unmountOk = false)
    (h1 : s.inFlight = none) (h2 : s.status ≠ AutoUpdateStatus.Updated) :
    (runUpdateCycle env).result = Except.error UpdateError.unmountError ∧
      (runUpdateCycle env).copyAttempted = true ∧
      (runUpdateCycle env).flagWriteRequested = false ∧
      AutoUpdateStatus.Updated ∉ (runUpdateCycle env).statusTrace ∧
      runPollToCompletion env s = ⟨AutoUpdateStatus.Errored, none⟩ := by
  have hcycle : runUpdateCycle env =
      ⟨[AutoUpdateStatus.Downloading, AutoUpdateStatus.Installing],
        true, true, true, true, false,
        Except.error UpdateError.unmountError⟩ := by
    simp [runUpdateCycle, hf, hsd, hd, hm, hc, hu]
  have hguard : (pollSync env s).2 = true := by
    simp [pollSync, h1, h2]
  refine ⟨by rw [hcycle], by rw [hcycle], by rw [hcycle], ?_, ?_⟩
  · rw [hcycle]; decide
  · simp [runPollToCompletion, hguard, hcycle, finalStatus]

/-- Witness for C7: the concrete unmount-failure environment. -/
theorem c7_unmount_failure_witness :
    (runUpdateCycle envUnmountFail).result =
        Except.error UpdateError.unmountError ∧
      runPollToCompletion envUnmountFail initState =
        ⟨AutoUpdateStatus.Errored, none⟩ :=
  ⟨(c7_unmount_failure envUnmountFail initState ⟨"1.0.0", "u"⟩ rfl
      (by decide) rfl rfl rfl rfl rfl (by decide)).1,
   (c7_unmount_failure envUnmountFail initState ⟨"1.0.0", "u"⟩ rfl
      (by decide) rfl rfl rfl rfl rfl (by decide)).2.2.2.2⟩

/-- Claim C8: on a fully successful install the cycle requests the
notification-flag write and sets `Updated` in that order within the final
closure, returning success; and the cycle's behaviour is entirely
independent of whether the fire-and-forget flag write would succeed. -/
theorem c8_success_flag_write (env : CycleEnv) (rel : JsonRelease)
    (hf : env.fetch = Except.ok rel)
    (hsd : shouldDownload env.channel env.commitSha rel.version
      env.currentVersion = Except.ok true)
    (hd : env.downloadOk = true) (hm : env.mountOk = true)
    (hc : env.copyOk = true) (hu : env.unmountOk = true) :
    (runUpdateCycle env).flagWriteRequested = true ∧
      (runUpdateCycle env).statusTrace =
        [AutoUpdateStatus.Downloading, AutoUpdateStatus.Installing,
          AutoUpdateStatus.Updated] ∧
      (runUpdateCycle env).result = Except.ok () ∧
      (∀ env2 : CycleEnv, ∀ b : Bool,
        runUpdateCycle { env2 with flagWriteOk := b } =
          runUpdateCycle env2) := by
  have hcycle : runUpdateCycle env =
      ⟨[AutoUpdateStatus.Downloading, AutoUpdateStatus.Installing,
          AutoUpdateStatus.Updated],
        true, true, true, true, true, Except.ok ()⟩ := by
    simp [runUpdateCycle, hf, hsd, hd, hm, hc, hu]
  refine ⟨by rw [hcycle], by rw [hcycle], by rw [hcycle], ?_⟩
  intro env2 b
  cases env2
  rfl

/-- Witness for C8: the concrete all-success environment. -/
theorem c8_success_flag_write_witness :
    (runUpdateCycle envFullSuccess).flagWriteRequested = true ∧
      (runUpdateCycle envFullSuccess).result = Except.ok () :=
  ⟨(c8_success_flag_write envFullSuccess ⟨"1.0.0", "u"⟩ rfl (by decide)
      rfl rfl rfl rfl).1,
   (c8_success_flag_write envFullSuccess ⟨"1.0.0", "u"⟩ rfl (by decide)
      rfl rfl rfl rfl).2.2.1⟩

/-- Claim C9: `set_should_show_update_notification(true)` writes the
sentinel under the fixed key, `(false)` deletes that key,
`should_show_update_notification` is true exactly when the key is
present, and the round-trips hold for every starting store. -/
theorem c9_notification_flag_roundtrip (store : KVStore) :
    readKvp (setShouldShowUpdateNotification true store)
        SHOULD_SHOW_UPDATE_NOTIFICATION_KEY = some "" ∧
      readKvp (setShouldShowUpdateNotification false store)
        SHOULD_SHOW_UPDATE_NOTIFICATION_KEY = none ∧
      shouldShowUpdateNotification store =
        (readKvp store SHOULD_SHOW_UPDATE_NOTIFICATION_KEY).isSome ∧
      shouldShowUpdateNotification
        (setShouldShowUpdateNotification true store) = true ∧
      shouldShowUpdateNotification
        (setShouldShowUpdateNotification false store) = false := by
  refine ⟨?_, ?_, rfl, ?_, ?_⟩ <;>
    simp [setShouldShowUpdateNotification, writeKvp, deleteKvp, readKvp,
      shouldShowUpdateNotification]

/-- Witness for C9 on the empty store. -/
theorem c9_notification_flag_roundtrip_witness :
    shouldShowUpdateNotification
        (setShouldShowUpdateNotification true (fun _ => none)) = true ∧
      shouldShowUpdateNotification
        (setShouldShowUpdateNotification false (fun _ => none)) = false :=
  ⟨(c9_notification_flag_roundtrip (fun _ => none)).2.2.2.1,
   (c9_notification_flag_roundtrip (fun _ => none)).2.2.2.2⟩

/-- Claim C10: in every reachable updater state with no poll in flight the
status is `Idle`, `Updated` or `Errored`; the intermediate statuses
`Checking`, `Downloading` and `Installing` are only observed while a poll
is in flight. -/
theorem c10_quiescent_invariant (s : SysState) (h : Reachable s) :
    (s.inFlight = none →
      s.status = AutoUpdateStatus.Idle ∨
        s.status = AutoUpdateStatus.Updated ∨
        s.status = AutoUpdateStatus.Errored) ∧
    ((s.status = AutoUpdateStatus.Checking ∨
        s.status = AutoUpdateStatus.Downloading ∨
        s.status = AutoUpdateStatus.Installing) →
      s.inFlight ≠ none) := by
  have hinv := reachable_inv h
  obtain ⟨st, fl⟩ := s
  cases fl with
  | some p =>
    refine ⟨fun hn => by simp at hn, fun _ hn => by simp at hn⟩
  | none =>
    have hstat : st = AutoUpdateStatus.Idle ∨
        st = AutoUpdateStatus.Updated ∨ st = AutoUpdateStatus.Errored := by
      simpa [UpdaterInv] using hinv
    refine ⟨fun _ => hstat, fun hst _ => ?_⟩
    rcases hstat with h1 | h1 | h1 <;> rcases hst with h2 | h2 | h2 <;>
      simp_all

/-- Witness for C10 at the initial state. -/
theorem c10_quiescent_invariant_witness :
    initState.status = AutoUpdateStatus.Idle ∨
      initState.status = AutoUpdateStatus.Updated ∨
      initState.status = AutoUpdateStatus.Errored :=
  (c10_quiescent_invariant initState Reachable.init).1 rfl
